import Mathlib

/-!
Verification development for the researchKit terminal research assistant.

The development shallowly embeds the tool-calling conversation loop of the
repository: the HTTP-level JSON machinery (json.loads / json.dumps and the
Chat Backend itself) are external collaborators and appear as explicit
function parameters, while every control-flow decision of the embedded
functions is translated directly from the Python source
(src/ollama_agent/ollama_client.py, conversation.py, workflow.py,
config.py, tools/url_fetch.py).
-/

/-- A JSON value, as produced by the external json library. -/
inductive JVal where
  | jstr (s : String)
  | jnum (n : Int)
  | jbool (b : Bool)
  | jnull
  | jarr (xs : List JVal)
  | jobj (fields : List (String × JVal))

mutual

/-- Structural equality on JSON values (Python `==` on parsed json). -/
def JVal.beq : JVal → JVal → Bool
  | JVal.jstr a, JVal.jstr b => a == b
  | JVal.jnum a, JVal.jnum b => a == b
  | JVal.jbool a, JVal.jbool b => a == b
  | JVal.jnull, JVal.jnull => true
  | JVal.jarr xs, JVal.jarr ys => JVal.beqList xs ys
  | JVal.jobj fs, JVal.jobj gs => JVal.beqFields fs gs
  | _, _ => false

/-- Elementwise equality of JSON arrays. -/
def JVal.beqList : List JVal → List JVal → Bool
  | [], [] => true
  | x :: xs, y :: ys => JVal.beq x y && JVal.beqList xs ys
  | _, _ => false

/-- Fieldwise equality of JSON objects. -/
def JVal.beqFields : List (String × JVal) → List (String × JVal) → Bool
  | [], [] => true
  | (k, v) :: fs, (l, w) :: gs => k == l && JVal.beq v w && JVal.beqFields fs gs
  | _, _ => false

end

/-- Conversation roles used by the chat API. -/
inductive Role where
  | system
  | user
  | assistant
  | tool
deriving DecidableEq

/-- Wire form of a tool call's `arguments` field: either an
already-structured value or a raw string requiring a parse step. -/
inductive ArgWire where
  | parsed (v : JVal)
  | raw (s : String)

/-- The `function` object inside a tool call returned by the backend. -/
structure ToolCallFunction where
  name : String
  arguments : ArgWire

/-- One tool-call request from the backend. -/
structure ToolCall where
  function : ToolCallFunction

/-- One turn of the conversation: role tag, text content, and (for
assistant turns that request tool use) the pending tool-call requests. -/
structure Message where
  role : Role
  content : String
  tool_calls : List ToolCall := []

/-- A tool implementation: receives the argument mapping, returns a result
value or raises (Except.error models a Python exception). -/
def ToolFun : Type := JVal → Except String JVal

/-- The tool registry: name-keyed set of invocable functions
(`Dict[str, Callable]` in the source). -/
def ToolRegistry : Type := List (String × ToolFun)

/-- Registry lookup (`tool_name not in tool_registry` / indexing). -/
def regLookup (registry : ToolRegistry) (tool_name : String) : Option ToolFun :=
  match registry with
  | [] => none
  | (k, f) :: rest => if k = tool_name then some f else regLookup rest tool_name

/-- Embedding of `OllamaClient.execute_tool_call` (ollama_client.py).
`jdumps` is the external json.dumps.  An `Except.error` result models a
Python exception raised out of the function: the source raises
`ValueError(f"Tool '{tool_name}' not found in registry")` when the name is
not registered, while failures of the tool itself are caught inside and
serialized to an error payload carrying message, tool name and arguments. -/
def execute_tool_call (jdumps : JVal → String) (registry : ToolRegistry)
    (tool_name : String) (arguments : JVal) : Except String String :=
  match regLookup registry tool_name with
  | none => Except.error ("Tool \x27" ++ tool_name ++ "\x27 not found in registry")
  | some f =>
    match f arguments with
    | Except.ok result => Except.ok (jdumps result)
    | Except.error e =>
      Except.ok (jdumps (JVal.jobj
        [("error", JVal.jstr e), ("tool", JVal.jstr tool_name), ("arguments", arguments)]))

/-- True when the invoke operation raised rather than returned. -/
def raisesOut (r : Except String String) : Bool :=
  match r with
  | Except.error _ => true
  | Except.ok _ => false

/-- The argument-normalisation step of `ConversationEngine.execute_tool_calls`
(conversation.py lines 151-156): a string payload is parsed with the external
json.loads (`jloads`); a parse failure degrades to the empty mapping. -/
def parseArguments (jloads : String → Option JVal) : ArgWire → JVal
  | ArgWire.parsed v => v
  | ArgWire.raw s =>
    match jloads s with
    | some v => v
    | none => JVal.jobj []

/-- The per-call body of `ConversationEngine.execute_tool_calls`
(conversation.py lines 161-181): invoke `execute_tool_call`; a returned
value becomes a tool-role message; an exception is caught and serialized
as `json.dumps({"error": str(e)})` in a tool-role message. -/
def dispatchToolCall (jdumps : JVal → String) (registry : ToolRegistry)
    (tool_name : String) (arguments : JVal) : Message :=
  match execute_tool_call jdumps registry tool_name arguments with
  | Except.ok result => { role := Role.tool, content := result }
  | Except.error e =>
    { role := Role.tool, content := jdumps (JVal.jobj [("error", JVal.jstr e)]) }

/-- Embedding of `ConversationEngine.execute_tool_calls` (conversation.py):
each requested call, in order, yields exactly one tool-role result message. -/
def executeToolCalls (jloads : String → Option JVal) (jdumps : JVal → String)
    (registry : ToolRegistry) (tool_calls : List ToolCall) : List Message :=
  tool_calls.map (fun tc =>
    dispatchToolCall jdumps registry tc.function.name
      (parseArguments jloads tc.function.arguments))

/-- A trivial concrete serializer standing in for json.dumps in witnesses. -/
def jdumps0 : JVal → String := fun _ => ""

/-- A concrete json.loads stand-in for witnesses: parses nothing. -/
def jloadsNone : String → Option JVal := fun _ => none

/-- Python `str.strip()` (whitespace from both ends), on the char list. -/
def pyStripList (l : List Char) : List Char :=
  ((l.dropWhile Char.isWhitespace).reverse.dropWhile Char.isWhitespace).reverse

/-- Python `str.strip()`. -/
def pyStrip (s : String) : String :=
  String.mk (pyStripList s.data)

/-- Python `str.lower()` (ASCII model of the external stdlib). -/
def pyLower (s : String) : String :=
  String.mk (s.data.map Char.toLower)

/-- Python `str.startswith`. -/
def pyStartsWith (s p : String) : Bool :=
  p.data.isPrefixOf s.data

/-- Whether `needle` starts the char list `hay`. -/
def listHasPrefix : List Char → List Char → Bool
  | _, [] => true
  | [], _ :: _ => false
  | h :: hs, n :: ns => h == n && listHasPrefix hs ns

/-- Substring occurrence on char lists. -/
def listContainsSub (hay needle : List Char) : Bool :=
  match hay with
  | [] => listHasPrefix [] needle
  | _ :: t => listHasPrefix hay needle || listContainsSub t needle

/-- Python `needle in hay` on strings. -/
def pyContainsSub (hay needle : String) : Bool :=
  listContainsSub hay.data needle.data

/-- Count of maximal non-whitespace runs; `inWord` says whether the scan
is currently inside a word. -/
def pyWordCountAux : List Char → Bool → Nat
  | [], _ => 0
  | c :: t, inWord =>
    if c.isWhitespace then pyWordCountAux t false
    else (if inWord then 0 else 1) + pyWordCountAux t true

/-- Python `len(s.split())`: number of whitespace-separated words. -/
def pyWordCount (s : String) : Nat :=
  pyWordCountAux s.data false

/-- The Chat Backend collaborator: one `client.chat` call, taking the
current message history and returning the reply message, or raising. -/
def Backend : Type := List Message → Except String Message

/-- Observable outcome of one `generate_response` run: final message
history, returned text, number of backend calls performed, whether the
max-iterations warning was printed, and whether a backend error was
reported to the user. -/
structure GenOutcome where
  messages : List Message
  output : String
  calls : Nat
  maxIterWarning : Bool
  errorReported : Bool

/-- History update of one tool iteration of `generate_response`
(conversation.py lines 102-114): append the assistant message carrying the
tool calls, then one tool-role result message per call, in order. -/
def toolIterationHistory (jloads : String → Option JVal) (jdumps : JVal → String)
    (registry : ToolRegistry) (msgs : List Message) (m : Message) : List Message :=
  msgs ++ m :: executeToolCalls jloads jdumps registry m.tool_calls

/-- Embedding of the loop body of `ConversationEngine.generate_response`
(conversation.py lines 85-133), with the remaining iteration budget as
fuel.  Fuel 0 is the `while` guard failing: max iterations reached,
warning printed, empty string returned.  A backend exception is caught in
the iteration, reported, and the empty string is returned immediately. -/
def generateResponseAux (jloads : String → Option JVal) (jdumps : JVal → String)
    (registry : ToolRegistry) (backend : Backend) :
    Nat → List Message → GenOutcome
  | 0, msgs => ⟨msgs, "", 0, true, false⟩
  | Nat.succ n, msgs =>
    match backend msgs with
    | Except.error _ => ⟨msgs, "", 1, false, true⟩
    | Except.ok m =>
      match m.tool_calls with
      | [] =>
        ⟨msgs ++ [{ role := Role.assistant, content := m.content }], m.content, 1, false, false⟩
      | _ :: _ =>
        let o := generateResponseAux jloads jdumps registry backend n
          (toolIterationHistory jloads jdumps registry msgs m)
        ⟨o.messages, o.output, o.calls + 1, o.maxIterWarning, o.errorReported⟩

/-- Embedding of `ConversationEngine.generate_response`: the tool loop with
its fixed ceiling `max_iterations = 10`. -/
def generate_response (jloads : String → Option JVal) (jdumps : JVal → String)
    (registry : ToolRegistry) (backend : Backend) (msgs : List Message) : GenOutcome :=
  generateResponseAux jloads jdumps registry backend 10 msgs

/-- Embedding of `ConversationEngine.approval_loop` (conversation.py lines
204-254).  The Human Interaction Surface is the list `inputs` of lines read
by `input()`, consumed in order (approval answers and feedback text share
the one stream); `editor` is `_edit_in_editor`; `regen` is the
`add_user_message` + `generate_response` pair on the regeneration state `σ`
(the engine's message history and backend).  `none` models the loop still
awaiting input when the script runs out. -/
def approval_loop {σ : Type} (editor : String → String) (regen : σ → String → σ × String)
    (content : String) (allow_edit : Bool) (rs : σ) (inputs : List String) :
    Option (String × Bool) :=
  match inputs with
  | [] => none
  | resp :: rest =>
    let r := pyLower (pyStrip resp)
    if r = "y" ∨ r = "yes" then
      some (content, true)
    else if (r = "e" ∨ r = "edit") ∧ allow_edit then
      approval_loop editor regen (editor content) allow_edit rs rest
    else if r = "f" ∨ r = "feedback" then
      match rest with
      | [] => none
      | fb :: rest2 =>
        let feedback := pyStrip fb
        if feedback ≠ "" then
          let s := regen rs feedback
          approval_loop editor regen s.2 allow_edit s.1 rest2
        else
          approval_loop editor regen content allow_edit rs rest2
    else if r = "s" ∨ r = "skip" then
      some (content, false)
    else
      approval_loop editor regen content allow_edit rs rest

/-- A value in the persisted config JSON document. -/
inductive CVal where
  | s (v : String)
  | q (v : Rat)
  | z (v : Int)
deriving DecidableEq

/-- Embedding of the `OllamaConfig` dataclass (config.py lines 10-21),
with Python floats modelled as rationals. -/
structure OllamaConfig where
  version : String := "1.0"
  ollama_url : String := "http://localhost:11434"
  model : String := ""
  temperature : Rat := 0.7
  top_p : Rat := 0.9
  num_ctx : Int := 4096
  created_at : String := ""
  updated_at : String := ""
deriving DecidableEq

/-- `OllamaConfig.to_dict` (config.py): the dataclass as a field dict. -/
def OllamaConfig.to_dict (c : OllamaConfig) : List (String × CVal) :=
  [("version", CVal.s c.version), ("ollama_url", CVal.s c.ollama_url),
   ("model", CVal.s c.model), ("temperature", CVal.q c.temperature),
   ("top_p", CVal.q c.top_p), ("num_ctx", CVal.z c.num_ctx),
   ("created_at", CVal.s c.created_at), ("updated_at", CVal.s c.updated_at)]

/-- The field names `OllamaConfig.from_dict` (i.e. `cls(**data)`) accepts. -/
def cfgKnownKeys : List String :=
  ["version", "ollama_url", "model", "temperature", "top_p", "num_ctx",
   "created_at", "updated_at"]

/-- Read a string field, falling back to the dataclass default when the
key is absent; a value of the wrong shape fails the construction. -/
def cfgGetS (d : List (String × CVal)) (k : String) (dflt : String) : Option String :=
  match d.lookup k with
  | none => some dflt
  | some (CVal.s v) => some v
  | some _ => none

/-- Read a float field with its default. -/
def cfgGetQ (d : List (String × CVal)) (k : String) (dflt : Rat) : Option Rat :=
  match d.lookup k with
  | none => some dflt
  | some (CVal.q v) => some v
  | some _ => none

/-- Read an int field with its default. -/
def cfgGetZ (d : List (String × CVal)) (k : String) (dflt : Int) : Option Int :=
  match d.lookup k with
  | none => some dflt
  | some (CVal.z v) => some v
  | some _ => none

/-- `OllamaConfig.from_dict` (config.py lines 31-41), i.e. `cls(**data)`:
unknown keys raise TypeError (modelled as `none`), known keys fill the
corresponding field, absent keys keep the dataclass default. -/
def OllamaConfig.from_dict (d : List (String × CVal)) : Option OllamaConfig :=
  if d.all (fun kv => cfgKnownKeys.contains kv.1) then
    match cfgGetS d "version" "1.0", cfgGetS d "ollama_url" "http://localhost:11434",
      cfgGetS d "model" "", cfgGetQ d "temperature" 0.7, cfgGetQ d "top_p" 0.9,
      cfgGetZ d "num_ctx" 4096, cfgGetS d "created_at" "", cfgGetS d "updated_at" "" with
    | some v, some u, some m, some t, some p, some n, some ca, some ua =>
      some ⟨v, u, m, t, p, n, ca, ua⟩
    | _, _, _, _, _, _, _, _ => none
  else none

/-- `OllamaConfig.validate` (config.py lines 43-67): the (is_valid,
error_message) pair, checks performed in source order. -/
def OllamaConfig.validate (c : OllamaConfig) : Bool × Option String :=
  if c.model = "" then (false, some "Model name is required")
  else if c.ollama_url = "" then (false, some "Ollama URL is required")
  else if ¬ (pyStartsWith c.ollama_url "http://" = true ∨
      pyStartsWith c.ollama_url "https://" = true) then
    (false, some "Ollama URL must start with http:// or https://")
  else if c.temperature < 0 ∨ 2 < c.temperature then
    (false, some "Temperature must be between 0.0 and 2.0")
  else if c.top_p < 0 ∨ 1 < c.top_p then
    (false, some "top_p must be between 0.0 and 1.0")
  else if c.num_ctx < 512 then (false, some "num_ctx must be at least 512")
  else (true, none)

/-- The on-disk state of the config file: the parsed JSON document, when
the file exists. -/
structure ConfigStore where
  file : Option (List (String × CVal))

/-- `ConfigManager.save` (config.py lines 122-153): validate first and
write nothing on failure; otherwise stamp `updated_at` with the current
time and write `to_dict` as the new file contents. -/
def ConfigManager.save (now : String) (store : ConfigStore) (config : OllamaConfig) :
    Bool × ConfigStore :=
  if (config.validate).1 = false then
    (false, store)
  else
    let config2 := { config with updated_at := now }
    (true, ⟨some config2.to_dict⟩)

/-- `ConfigManager.load` (config.py lines 92-120): `none` when the file is
absent, fails to re-parse into the dataclass, or fails validation. -/
def ConfigManager.load (store : ConfigStore) : Option OllamaConfig :=
  match store.file with
  | none => none
  | some d =>
    match OllamaConfig.from_dict d with
    | none => none
    | some config => if (config.validate).1 then some config else none

/-- A successful HTTP response as seen by `fetch_url` (tools/url_fetch.py):
`body` is `response.text`, plus the Content-Type header and status code. -/
structure HttpResponse where
  body : String
  content_type : String
  status_code : Int

/-- The result dictionary returned by `fetch_url`. -/
structure FetchResult where
  url : String
  title : String
  content : String
  content_type : String
  status_code : Int
  word_count : Nat
  error : Option String

/-- Embedding of `fetch_url` (tools/url_fetch.py).  `httpGet` is the
external `requests.get` + `raise_for_status` pair and `htmlExtract` is the
BeautifulSoup pipeline (title, cleaned visible text); both are
collaborators.  On the non-HTML branch the content is truncated to the
first 10000 characters while `word_count` is computed from the full
`response.text`. -/
def fetch_url (httpGet : String → Except String HttpResponse)
    (htmlExtract : String → String × String) (url : String)
    (extract_text : Bool := true) : FetchResult :=
  match httpGet url with
  | Except.error e =>
    { url := url, title := "", content := "", content_type := "",
      status_code := 0, word_count := 0, error := some e }
  | Except.ok response =>
    let content_type := pyLower response.content_type
    if pyContainsSub content_type "text/html" = true ∧ extract_text = true then
      let extracted := htmlExtract response.body
      { url := url, title := pyStrip extracted.1, content := extracted.2,
        content_type := content_type, status_code := response.status_code,
        word_count := pyWordCount extracted.2, error := none }
    else
      { url := url, title := "", content := response.body.take 10000,
        content_type := content_type, status_code := response.status_code,
        word_count := pyWordCount response.body, error := none }

/-- First-occurrence field lookup in a JSON object (Python dict access). -/
def jsonField : List (String × JVal) → String → Option JVal
  | [], _ => none
  | (k, v) :: rest, key => if k = key then some v else jsonField rest key

/-- URL values contributed by one parsed tool payload, as collected by
`WorkflowOrchestrator._update_sources` (workflow.py lines 453-460): a
top-level `url` field, and the `url` field of each object in a top-level
`results` list. -/
def toolPayloadUrls (v : JVal) : List JVal :=
  match v with
  | JVal.jobj fields =>
    (match jsonField fields "url" with
     | some u => [u]
     | none => []) ++
    (match jsonField fields "results" with
     | some (JVal.jarr rs) =>
       rs.filterMap (fun r =>
         match r with
         | JVal.jobj f => jsonField f "url"
         | _ => none)
     | _ => [])
  | _ => []

/-- Python `set.add`: append the value unless an equal one is present. -/
def pySetAdd (acc : List JVal) (u : JVal) : List JVal :=
  if acc.any (fun v => JVal.beq v u) then acc else acc ++ [u]

/-- The URL-collection scan of `WorkflowOrchestrator._update_sources`
(workflow.py lines 449-462): walk the conversation, parse each tool-role
message's content with json.loads (`jloads`), silently skip parse
failures, and accumulate the found URLs as a set. -/
def collectSourceUrls (jloads : String → Option JVal) (msgs : List Message) : List JVal :=
  msgs.foldl (fun acc m =>
    if m.role = Role.tool then
      match jloads m.content with
      | none => acc
      | some v => (toolPayloadUrls v).foldl pySetAdd acc
    else acc) []

/-- The string content of a collected URL value, for the write step. -/
def jvalAsStr : JVal → Option String
  | JVal.jstr s => some s
  | _ => none

/-- Lexicographic strict order on char lists (Python string `<`). -/
def pyStrLtList : List Char → List Char → Bool
  | [], [] => false
  | [], _ :: _ => true
  | _ :: _, [] => false
  | a :: as, b :: bs => if a = b then pyStrLtList as bs else decide (a < b)

/-- Python string `<=`, by code point. -/
def pyStrLe (a b : String) : Bool :=
  ! pyStrLtList b.data a.data

/-- Ordered insertion for the model of Python `sorted`. -/
def pyInsort (x : String) : List String → List String
  | [] => [x]
  | y :: ys => if pyStrLe x y then x :: y :: ys else y :: pyInsort x ys

/-- The external Python `sorted` builtin on strings, as insertion sort. -/
def pySorted (l : List String) : List String :=
  l.foldr pyInsort []

/-- The write step of `_update_sources` (workflow.py lines 464-468): when
any URL was collected, the URLs are appended to sources.md in sorted
order. -/
def sourcesWrittenUrls (jloads : String → Option JVal) (msgs : List Message) : List String :=
  let urls := collectSourceUrls jloads msgs
  match urls with
  | [] => []
  | _ :: _ => pySorted (urls.filterMap jvalAsStr)

/-- Every message produced by `executeToolCalls` has the tool role. -/
theorem dispatchToolCall_role (jdumps : JVal → String) (registry : ToolRegistry)
    (tool_name : String) (arguments : JVal) :
    (dispatchToolCall jdumps registry tool_name arguments).role = Role.tool := by
  unfold dispatchToolCall
  cases execute_tool_call jdumps registry tool_name arguments <;> rfl

/-- Membership form of `dispatchToolCall_role` for result lists. -/
theorem executeToolCalls_roles (jloads : String → Option JVal) (jdumps : JVal → String)
    (registry : ToolRegistry) (tool_calls : List ToolCall) :
    ∀ r ∈ executeToolCalls jloads jdumps registry tool_calls, r.role = Role.tool := by
  intro r hr
  unfold executeToolCalls at hr
  obtain ⟨tc, _, rfl⟩ := List.mem_map.mp hr
  exact dispatchToolCall_role _ _ _ _

/-- Key lemma for the iteration ceiling: when every backend reply carries
tool calls, the loop burns its whole budget, returns the empty string and
reaches the max-iterations warning, making exactly `fuel` backend calls. -/
theorem genAux_allToolCalls_spec (jloads : String → Option JVal) (jdumps : JVal → String)
    (registry : ToolRegistry) (backend : Backend)
    (hB : ∀ ms, ∃ m, backend ms = Except.ok m ∧ m.tool_calls ≠ []) :
    ∀ (fuel : Nat) (msgs : List Message),
      (generateResponseAux jloads jdumps registry backend fuel msgs).output = "" ∧
      (generateResponseAux jloads jdumps registry backend fuel msgs).calls = fuel ∧
      (generateResponseAux jloads jdumps registry backend fuel msgs).maxIterWarning = true := by
  intro fuel
  induction fuel with
  | zero =>
    intro msgs
    exact ⟨rfl, rfl, rfl⟩
  | succ n ih =>
    intro msgs
    obtain ⟨m, hm, htc⟩ := hB msgs
    cases hmt : m.tool_calls with
    | nil => exact absurd hmt htc
    | cons c cs =>
      have ihh := ih (toolIterationHistory jloads jdumps registry msgs m)
      simp only [generateResponseAux, hm, hmt]
      exact ⟨ihh.1, by rw [ihh.2.1], ihh.2.2⟩

/-- C2: against a backend that always returns tool-call requests,
`generate_response` performs exactly the ceiling of 10 backend calls,
terminates, returns the empty string and emits the max-iterations
warning; the loop never iterates past the ceiling. -/
theorem ceiling_exhaustion_terminates (jloads : String → Option JVal) (jdumps : JVal → String)
    (registry : ToolRegistry) (backend : Backend) (msgs : List Message)
    (hB : ∀ ms, ∃ m, backend ms = Except.ok m ∧ m.tool_calls ≠ []) :
    (generate_response jloads jdumps registry backend msgs).output = "" ∧
    (generate_response jloads jdumps registry backend msgs).calls = 10 ∧
    (generate_response jloads jdumps registry backend msgs).maxIterWarning = true :=
  genAux_allToolCalls_spec jloads jdumps registry backend hB 10 msgs

/-- A concrete backend that always requests the same tool call. -/
def backendAlwaysTool : Backend :=
  fun _ => Except.ok
    { role := Role.assistant, content := "",
      tool_calls := [⟨⟨"t", ArgWire.parsed (JVal.jobj [])⟩⟩] }

/-- Witness for C2 at the always-tool-calling backend and empty history. -/
theorem ceiling_exhaustion_terminates_witness :
    (∀ ms, ∃ m, backendAlwaysTool ms = Except.ok m ∧ m.tool_calls ≠ []) ∧
    ((generate_response jloadsNone jdumps0 [] backendAlwaysTool []).output = "" ∧
     (generate_response jloadsNone jdumps0 [] backendAlwaysTool []).calls = 10 ∧
     (generate_response jloadsNone jdumps0 [] backendAlwaysTool []).maxIterWarning = true) :=
  ⟨fun _ => ⟨_, rfl, List.cons_ne_nil _ _⟩,
   ceiling_exhaustion_terminates jloadsNone jdumps0 [] backendAlwaysTool []
     (fun _ => ⟨_, rfl, List.cons_ne_nil _ _⟩)⟩

/-- C4: in any iteration whose backend call raises, `generate_response`
catches the failure in that iteration, reports it (errorReported), makes
no further backend call (exactly the one failing call), leaves the history
as it stood, and returns the empty string to its caller instead of
raising; in particular a failure on the first call makes the whole run
return the empty string. -/
theorem backend_failure_returns_empty (jloads : String → Option JVal) (jdumps : JVal → String)
    (registry : ToolRegistry) (backend : Backend) (msgs : List Message) (n : Nat) (e : String)
    (h : backend msgs = Except.error e) :
    generateResponseAux jloads jdumps registry backend (n + 1) msgs
      = ⟨msgs, "", 1, false, true⟩ ∧
    generate_response jloads jdumps registry backend msgs
      = ⟨msgs, "", 1, false, true⟩ := by
  have haux : ∀ k : Nat, generateResponseAux jloads jdumps registry backend (k + 1) msgs
      = ⟨msgs, "", 1, false, true⟩ := by
    intro k
    simp only [generateResponseAux, h]
  exact ⟨haux n, haux 9⟩

/-- A concrete backend whose every call raises. -/
def backendFail : Backend := fun _ => Except.error "connection refused"

/-- Witness for C4 with a failing backend on a one-message history. -/
theorem backend_failure_returns_empty_witness :
    backendFail [⟨Role.user, "hi", []⟩] = Except.error "connection refused" ∧
    generate_response jloadsNone jdumps0 [] backendFail [⟨Role.user, "hi", []⟩]
      = ⟨[⟨Role.user, "hi", []⟩], "", 1, false, true⟩ :=
  ⟨rfl, (backend_failure_returns_empty jloadsNone jdumps0 [] backendFail
    [⟨Role.user, "hi", []⟩] 0 "connection refused" rfl).2⟩

/-- Helper for C10: when a run ends with the error report or the ceiling
warning, it returns the empty string and its final history is the starting
history extended only by completed tool iterations (assistant messages
carrying tool calls and tool-role results) — no final assistant message,
and nothing rolled back. -/
theorem genAux_empty_return_no_rollback (jloads : String → Option JVal)
    (jdumps : JVal → String) (registry : ToolRegistry) (backend : Backend) :
    ∀ (fuel : Nat) (msgs : List Message),
      ((generateResponseAux jloads jdumps registry backend fuel msgs).errorReported = true ∨
       (generateResponseAux jloads jdumps registry backend fuel msgs).maxIterWarning = true) →
      (generateResponseAux jloads jdumps registry backend fuel msgs).output = "" ∧
      ∃ extra : List Message,
        (generateResponseAux jloads jdumps registry backend fuel msgs).messages
          = msgs ++ extra ∧
        ∀ m ∈ extra, m.role = Role.tool ∨ m.tool_calls ≠ [] := by
  intro fuel
  induction fuel with
  | zero =>
    intro msgs _
    exact ⟨rfl, [], by simp [generateResponseAux], by simp⟩
  | succ n ih =>
    intro msgs hflag
    cases hb : backend msgs with
    | error e =>
      refine ⟨by simp [generateResponseAux, hb], [], by simp [generateResponseAux, hb], by simp⟩
    | ok m =>
      cases hmt : m.tool_calls with
      | nil =>
        exfalso
        simp only [generateResponseAux, hb, hmt] at hflag
        rcases hflag with hflag | hflag <;> exact Bool.false_ne_true hflag
      | cons c cs =>
        simp only [generateResponseAux, hb, hmt] at hflag ⊢
        obtain ⟨hout, extra, hmsgs, hmem⟩ := ih (toolIterationHistory jloads jdumps registry msgs m) hflag
        refine ⟨hout, m :: executeToolCalls jloads jdumps registry m.tool_calls ++ extra, ?_, ?_⟩
        · rw [hmsgs]
          unfold toolIterationHistory
          simp
        · intro x hx
          rcases List.mem_cons.mp hx with rfl | hx
          · exact Or.inr (by rw [hmt]; exact List.cons_ne_nil _ _)
          · rcases List.mem_append.mp hx with hx | hx
            · exact Or.inl (executeToolCalls_roles jloads jdumps registry m.tool_calls x hx)
            · exact hmem x hx

/-- C10: whenever `generate_response` returns the empty string because of
a backend failure or ceiling exhaustion, it appends no final assistant
message for that return, while every assistant and tool-role message
appended by earlier completed tool iterations remains in the history. -/
theorem empty_return_preserves_history (jloads : String → Option JVal)
    (jdumps : JVal → String) (registry : ToolRegistry) (backend : Backend)
    (msgs : List Message)
    (hflag : (generate_response jloads jdumps registry backend msgs).errorReported = true ∨
      (generate_response jloads jdumps registry backend msgs).maxIterWarning = true) :
    (generate_response jloads jdumps registry backend msgs).output = "" ∧
    ∃ extra : List Message,
      (generate_response jloads jdumps registry backend msgs).messages = msgs ++ extra ∧
      ∀ m ∈ extra, m.role = Role.tool ∨ m.tool_calls ≠ [] :=
  genAux_empty_return_no_rollback jloads jdumps registry backend 10 msgs hflag

/-- Witness for C10 with a failing backend on a one-message history. -/
theorem empty_return_preserves_history_witness :
    ((generate_response jloadsNone jdumps0 [] backendFail [⟨Role.user, "hi", []⟩]).errorReported = true ∨
     (generate_response jloadsNone jdumps0 [] backendFail [⟨Role.user, "hi", []⟩]).maxIterWarning = true) ∧
    ((generate_response jloadsNone jdumps0 [] backendFail [⟨Role.user, "hi", []⟩]).output = "" ∧
     ∃ extra : List Message,
       (generate_response jloadsNone jdumps0 [] backendFail [⟨Role.user, "hi", []⟩]).messages
         = [⟨Role.user, "hi", []⟩] ++ extra ∧
       ∀ m ∈ extra, m.role = Role.tool ∨ m.tool_calls ≠ []) :=
  ⟨Or.inl rfl,
   empty_return_preserves_history jloadsNone jdumps0 [] backendFail
     [⟨Role.user, "hi", []⟩] (Or.inl rfl)⟩

/-- The history invariant of the chat loop: tool-role messages appear
only as the block immediately following an assistant message that carried
tool-call requests, and that block is exactly the result list of
`executeToolCalls` on those requests — one tool-role message per request,
in request order.  All other messages carry no tool calls and are not
tool-role. -/
inductive ToolBlocks (jloads : String → Option JVal) (jdumps : JVal → String)
    (registry : ToolRegistry) : List Message → Prop
  | nil : ToolBlocks jloads jdumps registry []
  | plain (m : Message) (l : List Message) :
      m.role ≠ Role.tool → m.tool_calls = [] →
      ToolBlocks jloads jdumps registry l →
      ToolBlocks jloads jdumps registry (m :: l)
  | block (m : Message) (l : List Message) :
      m.role = Role.assistant → m.tool_calls ≠ [] →
      ToolBlocks jloads jdumps registry l →
      ToolBlocks jloads jdumps registry
        (m :: (executeToolCalls jloads jdumps registry m.tool_calls ++ l))

/-- `ToolBlocks` is closed under concatenation. -/
theorem ToolBlocks.append {jloads : String → Option JVal} {jdumps : JVal → String}
    {registry : ToolRegistry} {a b : List Message}
    (ha : ToolBlocks jloads jdumps registry a) (hb : ToolBlocks jloads jdumps registry b) :
    ToolBlocks jloads jdumps registry (a ++ b) := by
  induction ha with
  | nil => simpa using hb
  | plain m l hm hc _ ih => exact ToolBlocks.plain m (l ++ b) hm hc ih
  | block m l hr hc _ ih =>
    have hblk := @ToolBlocks.block jloads jdumps registry m (l ++ b) hr hc ih
    simpa [List.append_assoc] using hblk

/-- One tool iteration preserves the history invariant. -/
theorem ToolBlocks.toolIteration {jloads : String → Option JVal} {jdumps : JVal → String}
    {registry : ToolRegistry} {msgs : List Message} {m : Message}
    (h : ToolBlocks jloads jdumps registry msgs)
    (hrole : m.role = Role.assistant) (htc : m.tool_calls ≠ []) :
    ToolBlocks jloads jdumps registry (toolIterationHistory jloads jdumps registry msgs m) := by
  have hblk := @ToolBlocks.block jloads jdumps registry m [] hrole htc ToolBlocks.nil
  have happ := h.append hblk
  unfold toolIterationHistory
  simpa using happ

/-- The chat loop preserves the history invariant (assuming backend
replies carry the assistant role, as the chat API guarantees). -/
theorem genAux_preserves_ToolBlocks (jloads : String → Option JVal) (jdumps : JVal → String)
    (registry : ToolRegistry) (backend : Backend)
    (hrole : ∀ ms m, backend ms = Except.ok m → m.role = Role.assistant) :
    ∀ (fuel : Nat) (msgs : List Message), ToolBlocks jloads jdumps registry msgs →
      ToolBlocks jloads jdumps registry
        ((generateResponseAux jloads jdumps registry backend fuel msgs).messages) := by
  intro fuel
  induction fuel with
  | zero =>
    intro msgs h
    exact h
  | succ n ih =>
    intro msgs h
    cases hb : backend msgs with
    | error e => simpa [generateResponseAux, hb] using h
    | ok m =>
      cases hmt : m.tool_calls with
      | nil =>
        have hplain : ToolBlocks jloads jdumps registry
            [{ role := Role.assistant, content := m.content }] :=
          ToolBlocks.plain _ [] (by simp) rfl ToolBlocks.nil
        simpa [generateResponseAux, hb, hmt] using h.append hplain
      | cons c cs =>
        simp only [generateResponseAux, hb, hmt]
        exact ih _ (h.toolIteration (hrole msgs m hb) (by rw [hmt]; exact List.cons_ne_nil _ _))

/-- C3: every history produced by the chat loop keeps tool-role messages
only immediately after an assistant message carrying tool-call requests,
one tool-role message per request in request order (the `ToolBlocks`
invariant); and in an iteration whose backend reply carries exactly one
tool-call request, the loop appends exactly one assistant message and one
tool-role message before the next backend call. -/
theorem tool_messages_follow_requests (jloads : String → Option JVal)
    (jdumps : JVal → String) (registry : ToolRegistry) (backend : Backend)
    (msgs : List Message)
    (hrole : ∀ ms m, backend ms = Except.ok m → m.role = Role.assistant)
    (hwf : ToolBlocks jloads jdumps registry msgs) :
    ToolBlocks jloads jdumps registry
      ((generate_response jloads jdumps registry backend msgs).messages) ∧
    (∀ (history : List Message) (m : Message) (c : ToolCall), m.tool_calls = [c] →
      ∃ tr : Message, tr.role = Role.tool ∧
        toolIterationHistory jloads jdumps registry history m = history ++ [m, tr]) := by
  refine ⟨genAux_preserves_ToolBlocks jloads jdumps registry backend hrole 10 msgs hwf, ?_⟩
  intro history m c hc
  refine ⟨dispatchToolCall jdumps registry c.function.name
    (parseArguments jloads c.function.arguments), dispatchToolCall_role _ _ _ _, ?_⟩
  unfold toolIterationHistory executeToolCalls
  rw [hc]
  simp

/-- Witness for C3: the always-tool-calling assistant backend run from the
empty (trivially well-formed) history. -/
theorem tool_messages_follow_requests_witness :
    (∀ ms m, backendAlwaysTool ms = Except.ok m → m.role = Role.assistant) ∧
    ToolBlocks jloadsNone jdumps0 [] ([] : List Message) ∧
    ToolBlocks jloadsNone jdumps0 []
      ((generate_response jloadsNone jdumps0 [] backendAlwaysTool []).messages) :=
  ⟨fun ms m hm => by
      simp only [backendAlwaysTool, Except.ok.injEq] at hm
      rw [← hm],
   ToolBlocks.nil,
   (tool_messages_follow_requests jloadsNone jdumps0 [] backendAlwaysTool []
      (fun ms m hm => by
        simp only [backendAlwaysTool, Except.ok.injEq] at hm
        rw [← hm])
      ToolBlocks.nil).1⟩

/-- C5: execute-phase source aggregation over three tool results — one
with a top-level url "https://a", one with a results list carrying urls
"https://b" and "https://a", and one whose content json.loads cannot parse
— collects the deduplicated set exactly {"https://a","https://b"},
silently skipping the malformed entry, and writes it in sorted order. -/
theorem update_sources_aggregation (jloads : String → Option JVal) (c1 c2 c3 : String)
    (h1 : jloads c1 = some (JVal.jobj [("url", JVal.jstr "https://a")]))
    (h2 : jloads c2 = some (JVal.jobj [("results", JVal.jarr
      [JVal.jobj [("url", JVal.jstr "https://b")],
       JVal.jobj [("url", JVal.jstr "https://a")]])]))
    (h3 : jloads c3 = none) :
    collectSourceUrls jloads
      [⟨Role.tool, c1, []⟩, ⟨Role.tool, c2, []⟩, ⟨Role.tool, c3, []⟩]
      = [JVal.jstr "https://a", JVal.jstr "https://b"] ∧
    sourcesWrittenUrls jloads
      [⟨Role.tool, c1, []⟩, ⟨Role.tool, c2, []⟩, ⟨Role.tool, c3, []⟩]
      = ["https://a", "https://b"] := by
  have hc : collectSourceUrls jloads
      [⟨Role.tool, c1, []⟩, ⟨Role.tool, c2, []⟩, ⟨Role.tool, c3, []⟩]
      = [JVal.jstr "https://a", JVal.jstr "https://b"] := by
    simp [collectSourceUrls, List.foldl, h1, h2, h3, toolPayloadUrls, jsonField,
      pySetAdd, JVal.beq, JVal.beqFields, JVal.beqList]
  refine ⟨hc, ?_⟩
  unfold sourcesWrittenUrls
  rw [hc]
  decide

/-- A concrete json.loads for the C5 witness, parsing the three payloads
of the scenario. -/
def jloadsScenario : String → Option JVal :=
  fun s =>
    if s = "one" then some (JVal.jobj [("url", JVal.jstr "https://a")])
    else if s = "two" then some (JVal.jobj [("results", JVal.jarr
      [JVal.jobj [("url", JVal.jstr "https://b")],
       JVal.jobj [("url", JVal.jstr "https://a")]])])
    else none

/-- Witness for C5 at the concrete scenario parser and contents. -/
theorem update_sources_aggregation_witness :
    jloadsScenario "one" = some (JVal.jobj [("url", JVal.jstr "https://a")]) ∧
    jloadsScenario "three" = none ∧
    sourcesWrittenUrls jloadsScenario
      [⟨Role.tool, "one", []⟩, ⟨Role.tool, "two", []⟩, ⟨Role.tool, "three", []⟩]
      = ["https://a", "https://b"] :=
  ⟨rfl, rfl,
   (update_sources_aggregation jloadsScenario "one" "two" "three" rfl rfl rfl).2⟩

/-- Re-parsing a persisted config document yields the config back. -/
theorem from_dict_to_dict (c : OllamaConfig) :
    OllamaConfig.from_dict c.to_dict = some c := by
  rfl

/-- C6: saving a config that passes validation and loading it back
reproduces its fields (only the `updated_at` timestamp is rewritten, to
the save time); saving a config with an invalid field fails validation
and writes nothing to disk. -/
theorem config_save_load_roundtrip (cfg bad : OllamaConfig) (now : String)
    (store store2 : ConfigStore)
    (hv : (cfg.validate).1 = true) (hb : (bad.validate).1 = false) :
    (ConfigManager.save now store cfg).1 = true ∧
    ConfigManager.load (ConfigManager.save now store cfg).2
      = some { cfg with updated_at := now } ∧
    ({ cfg with updated_at := now } : OllamaConfig).model = cfg.model ∧
    ({ cfg with updated_at := now } : OllamaConfig).temperature = cfg.temperature ∧
    ({ cfg with updated_at := now } : OllamaConfig).num_ctx = cfg.num_ctx ∧
    ConfigManager.save now store2 bad = (false, store2) := by
  have hsave : ConfigManager.save now store cfg
      = (true, ⟨some ({ cfg with updated_at := now } : OllamaConfig).to_dict⟩) := by
    simp [ConfigManager.save, hv]
  have hval2 : (({ cfg with updated_at := now } : OllamaConfig).validate).1 = true := hv
  have hload : ConfigManager.load ⟨some ({ cfg with updated_at := now } : OllamaConfig).to_dict⟩
      = some { cfg with updated_at := now } := by
    simp [ConfigManager.load, from_dict_to_dict, hval2]
  exact ⟨by rw [hsave], by rw [hsave]; exact hload, rfl, rfl, rfl,
    by simp [ConfigManager.save, hb]⟩

/-- A valid example config for the round-trip scenario. -/
def cfgValid : OllamaConfig :=
  { model := "llama3.2", temperature := 1, top_p := 1, num_ctx := 8192 }

/-- The invalid example config: temperature 3.0, outside the accepted
0.0-2.0 range. -/
def cfgBad : OllamaConfig :=
  { cfgValid with temperature := 3 }

/-- Witness for C6 at the concrete valid and invalid example configs. -/
theorem config_save_load_roundtrip_witness :
    (cfgValid.validate).1 = true ∧
    (cfgBad.validate).1 = false ∧
    ConfigManager.load (ConfigManager.save "2026-10-12T00:00:00" ⟨none⟩ cfgValid).2
      = some { cfgValid with updated_at := "2026-10-12T00:00:00" } ∧
    ConfigManager.save "2026-10-12T00:00:00" ⟨none⟩ cfgBad = (false, ⟨none⟩) :=
  ⟨by decide, by decide,
   (config_save_load_roundtrip cfgValid cfgBad "2026-10-12T00:00:00" ⟨none⟩ ⟨none⟩
      (by decide) (by decide)).2.1,
   (config_save_load_roundtrip cfgValid cfgBad "2026-10-12T00:00:00" ⟨none⟩ ⟨none⟩
      (by decide) (by decide)).2.2.2.2.2⟩

/-- C7: answering accept (y or yes, after strip and lowercase) at the
first prompt returns the content unmutated with approved = true; and
answering skip (s or skip) at any point returns the content as it then
stands with approved = false — regardless of editor, regeneration
behaviour, edit permission and remaining input. -/
theorem approval_accept_and_skip {σ : Type} (editor : String → String)
    (regen : σ → String → σ × String) (content : String) (allow_edit : Bool)
    (rs : σ) (resp : String) (rest : List String) :
    (pyLower (pyStrip resp) = "y" ∨ pyLower (pyStrip resp) = "yes" →
      approval_loop editor regen content allow_edit rs (resp :: rest)
        = some (content, true)) ∧
    (pyLower (pyStrip resp) = "s" ∨ pyLower (pyStrip resp) = "skip" →
      approval_loop editor regen content allow_edit rs (resp :: rest)
        = some (content, false)) := by
  constructor
  · intro h
    unfold approval_loop
    rcases h with h | h <;> simp [h]
  · intro h
    unfold approval_loop
    rcases h with h | h <;> simp [h]

/-- Witness for C7: accepting with " Y " and skipping with "skip" on a
concrete content, identity editor and echoing regeneration. -/
theorem approval_accept_and_skip_witness :
    pyLower (pyStrip " Y ") = "y" ∧
    approval_loop id (fun (u : Unit) f => (u, f)) "draft" true () [" Y "]
      = some ("draft", true) ∧
    pyLower (pyStrip "skip") = "skip" ∧
    approval_loop id (fun (u : Unit) f => (u, f)) "draft" true () ["skip"]
      = some ("draft", false) :=
  ⟨by decide,
   (approval_accept_and_skip id (fun (u : Unit) f => (u, f)) "draft" true () " Y " []).1
     (Or.inl (by decide)),
   by decide,
   (approval_accept_and_skip id (fun (u : Unit) f => (u, f)) "draft" true () "skip" []).2
     (Or.inr (by decide))⟩

/-- C9: on a successfully fetched response that does not take the
HTML-extraction branch (non-HTML content type, or extraction disabled),
`fetch_url` returns the first 10000 characters of the body as `content`
while `word_count` is computed over the full, untruncated body — so
`word_count` can exceed the words present in the returned content. -/
theorem fetch_url_truncation_vs_word_count (httpGet : String → Except String HttpResponse)
    (htmlExtract : String → String × String) (url : String) (extract_text : Bool)
    (response : HttpResponse) (hget : httpGet url = Except.ok response)
    (hbranch : ¬ (pyContainsSub (pyLower response.content_type) "text/html" = true ∧
      extract_text = true)) :
    fetch_url httpGet htmlExtract url extract_text
      = { url := url, title := "", content := response.body.take 10000,
          content_type := pyLower response.content_type,
          status_code := response.status_code,
          word_count := pyWordCount response.body, error := none } := by
  unfold fetch_url
  rw [hget]
  simp [hbranch]

/-- A concrete HTTP collaborator for the C9 witness. -/
def httpGetJson : String → Except String HttpResponse :=
  fun _ => Except.ok ⟨"one two three", "application/json", 200⟩

/-- Witness for C9 at a concrete non-HTML response. -/
theorem fetch_url_truncation_vs_word_count_witness :
    httpGetJson "https://x" = Except.ok ⟨"one two three", "application/json", 200⟩ ∧
    ¬ (pyContainsSub (pyLower "application/json") "text/html" = true ∧ true = true) ∧
    fetch_url httpGetJson (fun _ => ("", "")) "https://x" true
      = { url := "https://x", title := "", content := ("one two three" : String).take 10000,
          content_type := pyLower "application/json", status_code := 200,
          word_count := pyWordCount "one two three", error := none } :=
  ⟨rfl, by decide,
   fetch_url_truncation_vs_word_count httpGetJson (fun _ => ("", "")) "https://x" true
     ⟨"one two three", "application/json", 200⟩ rfl (by decide)⟩

/-- C1 counterexample: for the unregistered name "missing",
`execute_tool_call` does not return an error ToolResult — it raises
(ValueError), contradicting the claim that the invoke operation returns
without raising out of the layer. -/
theorem execute_tool_call_unregistered_raises_cex :
    raisesOut (execute_tool_call jdumps0 [] "missing" (JVal.jobj [])) = true ∧
    execute_tool_call jdumps0 [] "missing" (JVal.jobj [])
      = Except.error "Tool \x27missing\x27 not found in registry" :=
  ⟨rfl, rfl⟩

/-- C1 (amended): when the tool name is absent from the registry,
`execute_tool_call` raises a ValueError whose message references that
name; the caller `execute_tool_calls` catches it and produces an error
ToolResult (a tool-role message serializing the message), so the
invocation never surfaces as an uncaught failure to the chat loop. -/
theorem execute_tool_call_unregistered_caught (jloads : String → Option JVal)
    (jdumps : JVal → String) (registry : ToolRegistry) (tool_name : String)
    (aw : ArgWire) (h : regLookup registry tool_name = none) :
    execute_tool_call jdumps registry tool_name (parseArguments jloads aw)
      = Except.error ("Tool \x27" ++ tool_name ++ "\x27 not found in registry") ∧
    executeToolCalls jloads jdumps registry [⟨⟨tool_name, aw⟩⟩]
      = [{ role := Role.tool,
           content := jdumps (JVal.jobj [("error",
             JVal.jstr ("Tool \x27" ++ tool_name ++ "\x27 not found in registry"))]) }] := by
  have h1 : execute_tool_call jdumps registry tool_name (parseArguments jloads aw)
      = Except.error ("Tool \x27" ++ tool_name ++ "\x27 not found in registry") := by
    unfold execute_tool_call
    rw [h]
  refine ⟨h1, ?_⟩
  unfold executeToolCalls
  simp [dispatchToolCall, h1]

/-- Witness for the amended C1 at the concrete unregistered name
"missing" against the empty registry. -/
theorem execute_tool_call_unregistered_caught_witness :
    regLookup [] "missing" = none ∧
    executeToolCalls jloadsNone jdumps0 [] [⟨⟨"missing", ArgWire.parsed (JVal.jobj [])⟩⟩]
      = [{ role := Role.tool,
           content := jdumps0 (JVal.jobj [("error",
             JVal.jstr ("Tool \x27" ++ "missing" ++ "\x27 not found in registry"))]) }] :=
  ⟨rfl, (execute_tool_call_unregistered_caught jloadsNone jdumps0 [] "missing"
      (ArgWire.parsed (JVal.jobj [])) rfl).2⟩

/-- C8: a tool-call whose arguments arrive as a string that fails to
parse degrades to the empty argument set and the tool is still invoked;
a string that does parse is used as the parsed mapping. -/
theorem string_arguments_parse_or_degrade (jloads : String → Option JVal)
    (jdumps : JVal → String) (registry : ToolRegistry) (tool_name s : String) (v : JVal) :
    (jloads s = none →
      parseArguments jloads (ArgWire.raw s) = JVal.jobj [] ∧
      executeToolCalls jloads jdumps registry [⟨⟨tool_name, ArgWire.raw s⟩⟩]
        = [dispatchToolCall jdumps registry tool_name (JVal.jobj [])]) ∧
    (jloads s = some v →
      parseArguments jloads (ArgWire.raw s) = v ∧
      executeToolCalls jloads jdumps registry [⟨⟨tool_name, ArgWire.raw s⟩⟩]
        = [dispatchToolCall jdumps registry tool_name v]) := by
  constructor
  · intro h
    have hp : parseArguments jloads (ArgWire.raw s) = JVal.jobj [] := by
      simp [parseArguments, h]
    exact ⟨hp, by unfold executeToolCalls; rw [List.map_singleton, hp]⟩
  · intro h
    have hp : parseArguments jloads (ArgWire.raw s) = v := by
      simp [parseArguments, h]
    exact ⟨hp, by unfold executeToolCalls; rw [List.map_singleton, hp]⟩

/-- A concrete json.loads stand-in that parses exactly one payload. -/
def jloadsOneGood : String → Option JVal :=
  fun s => if s = "good" then some (JVal.jobj [("query", JVal.jstr "x")]) else none

/-- Witness for C8: with a concrete parser, the unparseable payload "bad"
degrades to the empty mapping and the parseable payload "good" is used as
parsed. -/
theorem string_arguments_parse_or_degrade_witness :
    (parseArguments jloadsOneGood (ArgWire.raw "bad") = JVal.jobj [] ∧
      executeToolCalls jloadsOneGood jdumps0 [] [⟨⟨"t", ArgWire.raw "bad"⟩⟩]
        = [dispatchToolCall jdumps0 [] "t" (JVal.jobj [])]) ∧
    (parseArguments jloadsOneGood (ArgWire.raw "good") = JVal.jobj [("query", JVal.jstr "x")] ∧
      executeToolCalls jloadsOneGood jdumps0 [] [⟨⟨"t", ArgWire.raw "good"⟩⟩]
        = [dispatchToolCall jdumps0 [] "t" (JVal.jobj [("query", JVal.jstr "x")])]) :=
  ⟨(string_arguments_parse_or_degrade jloadsOneGood jdumps0 [] "t" "bad" JVal.jnull).1 rfl,
   (string_arguments_parse_or_degrade jloadsOneGood jdumps0 [] "t" "good"
      (JVal.jobj [("query", JVal.jstr "x")])).2 rfl⟩
